import Mathlib

/-!
Verification of the SM-2 spaced-repetition scheduler and the level-advancement
engine of the language-learning backend (`app/services/srs_service.py` and
`app/services/progress_service.py`).

Modelling conventions:
* Python `float` values are modelled as rationals (`ℚ`); `int` as `ℤ`.
* Python's built-in `round` (banker's rounding, ties to even) is modelled by
  `pythonRound`; `round(x, 2)` by `round2`.
* Timestamps (`datetime`) are modelled as integers counting days, so that
  `timedelta(days=k)` is addition by `k` and comparisons are preserved.
* The SQLAlchemy session is modelled by an explicit `DB` record holding the
  relevant tables as lists (in insertion order); `query(...).first()` is
  `List.find?`, in-place mutation of an ORM row is a positional `List.map`
  replacing the row with the matching primary key, and `delete()` is
  `List.filter`.  A raised exception is an `Except.error` result paired with
  the database state at the raise point (in all raising paths of the embedded
  functions no mutation precedes the raise, so the paired state is the input
  state, matching the fact that nothing was committed).
-/

set_option allowUnsafeReducibility true in
attribute [semireducible] Rat.add Rat.mul Rat.sub Rat.inv Rat.ofScientific

deriving instance DecidableEq for Except

namespace GenaiLang

/-- Python's built-in `round` on a rational: round half to even.
(`Rat.floor` is used rather than `⌊·⌋` so the definition evaluates by `decide`;
`ratFloor_eq_floor` below identifies the two.) -/
def pythonRound (q : ℚ) : ℤ :=
  let f := q.floor
  let r := q - (f : ℚ)
  if r < 1/2 then f
  else if 1/2 < r then f + 1
  else if f % 2 = 0 then f else f + 1

theorem ratFloor_eq_floor (q : ℚ) : q.floor = ⌊q⌋ := by
  rw [Rat.floor_def', Rat.floor_def]

/-- Python's `round(x, 2)`: round to two decimal places, ties to even. -/
def round2 (q : ℚ) : ℚ := (pythonRound (q * 100) : ℚ) / 100

/-- Result dictionary of `calculate_sm2` (`srs_service.py`). -/
structure SM2Result where
  easiness_factor : ℚ
  repetitions : ℤ
  interval : ℤ
deriving DecidableEq, Repr

/-- Function `calculate_sm2(quality, easiness_factor, repetitions, interval)` from
`app/services/srs_service.py`, transliterated line by line. -/
def calculate_sm2 (quality : ℤ) (easiness_factor : ℚ) (repetitions : ℤ)
    (interval : ℤ) : SM2Result :=
  -- new_ef = easiness_factor + (0.1 - (5 - quality) * (0.08 + (5 - quality) * 0.02))
  let new_ef := easiness_factor +
    (1/10 - (5 - (quality : ℚ)) * (8/100 + (5 - (quality : ℚ)) * (2/100)))
  -- if new_ef < 1.3: new_ef = 1.3
  let new_ef := if new_ef < 13/10 then 13/10 else new_ef
  if quality < 3 then
    -- new_repetitions = max(0, repetitions - 2); new_interval = 1
    { easiness_factor := round2 new_ef
      repetitions := max 0 (repetitions - 2)
      interval := 1 }
  else
    let new_repetitions := repetitions + 1
    let new_interval :=
      if new_repetitions = 1 then 1
      else if new_repetitions = 2 then 6
      else pythonRound ((interval : ℚ) * new_ef)
    { easiness_factor := round2 new_ef
      repetitions := new_repetitions
      interval := new_interval }

/-- Row of the `vocabulary_reviews` table (`app/db/models.py`, `VocabularyReview`). -/
structure VocabularyReview where
  id : ℤ
  user_id : String
  word : String
  definition : String
  example_sentence : Option String
  target_language : String
  easiness_factor : ℚ
  repetitions : ℤ
  interval : ℤ
  next_review_date : ℤ
  last_reviewed_at : Option ℤ
deriving DecidableEq, Repr

/-- Row of the `users` table (`app/db/models.py`, `User`); only the fields the
progress/SRS services read or write.  `target_language` is modelled as a plain
string: the vocabulary endpoints reject users without one before any service
call. -/
structure User where
  id : String
  target_language : String
  level : Option String
  level_started_at : Option ℤ
  can_advance : Bool
  advancement_notified_at : Option ℤ
  total_xp : ℤ
  created_at : ℤ
deriving DecidableEq, Repr

/-- Row of the `user_progress` table (`app/db/models.py`, `UserProgress`). -/
structure UserProgress where
  user_id : String
  module : String
  score : Option ℚ
  total_attempts : ℤ
  correct_attempts : ℤ
  last_activity_at : Option ℤ
deriving DecidableEq, Repr

/-- One message of a conversation transcript (`context_json["messages"]` entry). -/
structure Msg where
  role : String
  content : String
deriving DecidableEq, Repr

/-- Row of the `conversation_sessions` table; `context_json` is modelled by its
`messages` list (the only part the progress service reads). -/
structure ConversationSession where
  id : String
  user_id : String
  messages : List Msg
deriving DecidableEq, Repr

/-- Row of the `level_history` table (`app/db/models.py`, `LevelHistory`). -/
structure LevelHistory where
  id : String
  user_id : String
  level : Option String
  vocabulary_score : Option ℚ
  grammar_score : Option ℚ
  writing_score : Option ℚ
  phonetics_score : Option ℚ
  conversation_messages : ℕ
  vocabulary_attempts : ℤ
  grammar_attempts : ℤ
  writing_attempts : ℤ
  phonetics_attempts : ℤ
  started_at : ℤ
  completed_at : ℤ
  days_at_level : ℤ
  weighted_score : ℚ
deriving DecidableEq, Repr

/-- The persisted database state: the five tables the two services touch, each
as a list of rows in insertion order. -/
structure DB where
  users : List User
  progress : List UserProgress
  sessions : List ConversationSession
  history : List LevelHistory
  reviews : List VocabularyReview
deriving DecidableEq, Repr

/-- Fresh primary key for a new `vocabulary_reviews` row (models the
autoincrement column). -/
def freshReviewId (db : DB) : ℤ :=
  (db.reviews.map (·.id)).foldr max 0 + 1

/-- Function `add_word_to_srs(db, user, word, definition, example_sentence)` from
`app/services/srs_service.py`.  `now` stands for `datetime.now()`. -/
def add_word_to_srs (db : DB) (user : User) (word definition : String)
    (example_sentence : Option String) (now : ℤ) : VocabularyReview × DB :=
  -- existing = db.query(VocabularyReview).filter(and_(user_id, word, target_language)).first()
  match db.reviews.find? (fun r =>
      r.user_id == user.id && r.word == word
        && r.target_language == user.target_language) with
  | some existing =>
    -- if existing.next_review_date > datetime.now(): pull it forward to now
    if now < existing.next_review_date then
      let updated := { existing with next_review_date := now }
      (updated,
       { db with reviews :=
          db.reviews.map (fun r => if r.id == existing.id then updated else r) })
    else
      (existing, db)
  | none =>
    let review : VocabularyReview :=
      { id := freshReviewId db
        user_id := user.id
        word := word
        definition := definition
        example_sentence := example_sentence
        target_language := user.target_language
        easiness_factor := 5/2
        repetitions := 0
        interval := 1
        next_review_date := now
        last_reviewed_at := none }
    (review, { db with reviews := db.reviews ++ [review] })

/-- Errors raised by the SRS service (`raise ValueError(f"Review {id} not found")`). -/
inductive SrsError where
  | reviewNotFound (review_id : ℤ)
deriving DecidableEq, Repr

/-- Function `update_review(db, review_id, quality)` from `app/services/srs_service.py`.
The result pairs the outcome with the persisted state; on the error path the
function raises before touching any row, so the paired state is the input. -/
def update_review (db : DB) (review_id : ℤ) (quality : ℤ) (now : ℤ) :
    Except SrsError VocabularyReview × DB :=
  match db.reviews.find? (fun r => r.id == review_id) with
  | none => (.error (.reviewNotFound review_id), db)
  | some review =>
    let new_params :=
      calculate_sm2 quality review.easiness_factor review.repetitions review.interval
    let updated := { review with
      easiness_factor := new_params.easiness_factor
      repetitions := new_params.repetitions
      interval := new_params.interval
      next_review_date := now + new_params.interval
      last_reviewed_at := some now }
    (.ok updated,
     { db with reviews :=
        db.reviews.map (fun r => if r.id == review.id then updated else r) })

/-! Constants of `app/services/progress_service.py`. -/

def LEVEL_ORDER : List String := ["A1", "A2", "B1", "B2", "C1", "C2"]

def SCORE_THRESHOLD : ℚ := 85

def MINIMUM_ATTEMPTS : ℤ := 10

def CONVERSATION_MINIMUM : ℤ := 20

def XP_REWARDS : List (String × ℤ) :=
  [("A1", 100), ("A2", 200), ("B1", 300), ("B2", 400), ("C1", 500), ("C2", 1000)]

def SCORED_MODULES : List String := ["vocabulary", "grammar", "writing", "phonetics"]

/-- Lookup `XP_REWARDS.get(old_level, 100)`; a `None` (or unknown) level maps to the
default 100. -/
def xpReward (level : Option String) : ℤ :=
  match level with
  | none => 100
  | some l => (((XP_REWARDS.find? (fun p => p.1 == l)).map (·.2)).getD 100)

/-- Function `get_next_level(current_level)` from `app/services/progress_service.py`.
`none`/empty/unknown inputs map to `"A1"`; the top level maps to `none`. -/
def get_next_level (current_level : Option String) : Option String :=
  match current_level with
  | none => some "A1"
  | some l =>
    if l = "" then some "A1"
    else if LEVEL_ORDER.contains l then
      (LEVEL_ORDER.drop (LEVEL_ORDER.indexOf l + 1)).head?
    else some "A1"

/-- Helper `_get_module_progress(user_id, module, db)`. -/
def get_module_progress (user_id : String) (module : String) (db : DB) :
    Option UserProgress :=
  db.progress.find? (fun p => p.user_id == user_id && p.module == module)

/-- Helper `_get_conversation_message_count(user_id, db)`: user-authored messages
across the user's sessions. -/
def get_conversation_message_count (user_id : String) (db : DB) : ℕ :=
  ((db.sessions.filter (fun s => s.user_id == user_id)).map
    (fun s => (s.messages.filter (fun m => m.role == "user")).length)).sum

/-- Structured rendering of the per-module blocking reason strings
(`"No activity yet"`, `f"Score too low ({score:.1f}%)"`,
`f"Not enough attempts ({attempts}/{MINIMUM_ATTEMPTS})"`); the string is
injectively determined by the constructor and its payload. -/
inductive ModuleReason where
  | noActivity
  | scoreTooLow (score : ℚ)
  | notEnoughAttempts (attempts : ℤ)
deriving DecidableEq, Repr

/-- Entry of the `module_status` dictionary built by
`calculate_advancement_eligibility`. -/
structure ModuleStatus where
  ready : Bool
  score : Option ℚ
  attempts : ℤ
  reason : Option ModuleReason
deriving DecidableEq, Repr

/-- One entry of the `blocking_reasons` list (module header plus reason, or the
`f"Conversation: Need {k} more messages"` line). -/
inductive BlockReason where
  | moduleBlock (module : String) (r : ModuleReason)
  | conversationNeed (missing : ℤ)
deriving DecidableEq, Repr

/-- The `reason` value of the eligibility dictionary: the three early-return
strings, or the joined `blocking_reasons` list. -/
inductive EligReason where
  | userNotFound
  | levelNotSet
  | maxLevel
  | blocked (reasons : List BlockReason)
deriving DecidableEq, Repr

/-- The dictionary returned by `calculate_advancement_eligibility`; the three
early returns carry only `eligible` and `reason`, so the remaining keys are
`Option`s that are `none` exactly when absent. -/
structure EligibilityResult where
  eligible : Bool
  reason : Option EligReason
  modules : Option (List (String × ModuleStatus))
  conversation_messages : Option ℕ
  conversation_ready : Option Bool
deriving DecidableEq, Repr

/-- The per-module body of the eligibility loop in
`calculate_advancement_eligibility`. -/
def moduleStatusOf (user_id : String) (db : DB) (module : String) : ModuleStatus :=
  match get_module_progress user_id module db with
  | none =>
    { ready := false, score := none, attempts := 0, reason := some .noActivity }
  | some progress =>
    -- score = progress.score or 0.0 ; attempts = progress.total_attempts or 0
    let score := progress.score.getD 0
    let attempts := progress.total_attempts
    let meets_score := SCORE_THRESHOLD ≤ score
    let meets_attempts := MINIMUM_ATTEMPTS ≤ attempts
    let ready := meets_score && meets_attempts
    { ready := ready
      score := some score
      attempts := attempts
      reason :=
        if ready then none
        else if ¬ meets_score then some (.scoreTooLow score)
        else some (.notEnoughAttempts attempts) }

/-- Function `calculate_advancement_eligibility(user_id, db)` from
`app/services/progress_service.py`.  The function only queries, so the
returned session state is the input state (the pair is formed at the top
level, mirroring that no statement in the source mutates a row). -/
def calculate_advancement_eligibility (user_id : String) (db : DB) :
    EligibilityResult × DB :=
  (match db.users.find? (fun u => u.id == user_id) with
   | none =>
     { eligible := false, reason := some .userNotFound
       modules := none, conversation_messages := none, conversation_ready := none }
   | some user =>
     if user.level = none ∨ user.level = some "" then
       { eligible := false, reason := some .levelNotSet
         modules := none, conversation_messages := none, conversation_ready := none }
     else
       match get_next_level user.level with
       | none =>
         { eligible := false, reason := some .maxLevel
           modules := none, conversation_messages := none, conversation_ready := none }
       | some _next_level =>
         let statuses := SCORED_MODULES.map (fun m => (m, moduleStatusOf user_id db m))
         let all_modules_ready := statuses.all (fun p => p.2.ready)
         let module_blocks := statuses.filterMap
           (fun p => p.2.reason.map (fun r => BlockReason.moduleBlock p.1 r))
         let conversation_messages := get_conversation_message_count user_id db
         let conversation_ready := CONVERSATION_MINIMUM ≤ (conversation_messages : ℤ)
         let eligible := all_modules_ready && conversation_ready
         { eligible := eligible
           reason :=
             if eligible then none
             else some (.blocked (module_blocks ++
               (if conversation_ready then []
                else [BlockReason.conversationNeed
                  (CONVERSATION_MINIMUM - (conversation_messages : ℤ))])))
           modules := some statuses
           conversation_messages := some conversation_messages
           conversation_ready := some conversation_ready }, db)

/-- Function `reset_progress_for_new_level(user_id, db)`: zero the user's
`UserProgress` rows in place and delete the user's conversation sessions. -/
def reset_progress_for_new_level (user_id : String) (db : DB) : DB :=
  { db with
    progress := db.progress.map (fun p =>
      if p.user_id == user_id then
        { p with score := some 0, total_attempts := 0, correct_attempts := 0 }
      else p)
    sessions := db.sessions.filter (fun s => !(s.user_id == user_id)) }

/-- The distinct raise sites of `advance_user_level`:
`ValueError("User not found")`, `ValueError(f"Not eligible to advance: {reason}")`
(carrying the eligibility reason), and `ValueError("Already at maximum level")`. -/
inductive AdvanceError where
  | userNotFound
  | notEligible (reason : Option EligReason)
  | maxLevel
deriving DecidableEq, Repr

/-- Schema `AdvancementResponse` (`app/schemas/progress.py`), without the derived
celebration string. -/
structure AdvancementResponse where
  success : Bool
  new_level : String
  old_level : Option String
  xp_earned : ℤ
  module_scores : List (String × Option ℚ)
deriving DecidableEq, Repr

/-- Function `advance_user_level(user_id, db)` from `app/services/progress_service.py`.
`now` stands for `datetime.utcnow()` and `hid` for the generated `uuid4()`
history id.  Every raising path occurs before the first mutation, so the
state paired with an error is the unchanged input state. -/
def advance_user_level (user_id : String) (now : ℤ) (hid : String) (db : DB) :
    Except AdvanceError AdvancementResponse × DB :=
  match db.users.find? (fun u => u.id == user_id) with
  | none => (.error .userNotFound, db)
  | some user =>
    -- eligibility is recomputed here; the call performs no writes
    let elig := (calculate_advancement_eligibility user_id db).1
    if elig.eligible then
      let old_level := user.level
      match get_next_level old_level with
      | none => (.error .maxLevel, db)
      | some new_level =>
        -- snapshot scores and attempts of the scored modules
        let module_scores := SCORED_MODULES.map (fun m =>
          (m, (get_module_progress user_id m db).bind (·.score)))
        let module_attempts := SCORED_MODULES.map (fun m =>
          (m, ((get_module_progress user_id m db).map (·.total_attempts)).getD 0))
        let conversation_messages := elig.conversation_messages.getD 0
        -- module_scores.get(m) or 0.0
        let scoreOf := fun (m : String) =>
          (((module_scores.find? (fun p => p.1 == m)).bind (·.2)).getD 0)
        let attemptsOf := fun (m : String) =>
          (((module_attempts.find? (fun p => p.1 == m)).map (·.2)).getD 0)
        let weighted_score :=
          scoreOf "vocabulary" * (30/100) + scoreOf "grammar" * (30/100) +
          scoreOf "writing" * (20/100) + scoreOf "phonetics" * (20/100)
        let days_at_level :=
          match user.level_started_at with
          | some t => now - t
          | none => 0
        let history_entry : LevelHistory :=
          { id := hid
            user_id := user_id
            level := old_level
            vocabulary_score := (module_scores.find? (fun p => p.1 == "vocabulary")).bind (·.2)
            grammar_score := (module_scores.find? (fun p => p.1 == "grammar")).bind (·.2)
            writing_score := (module_scores.find? (fun p => p.1 == "writing")).bind (·.2)
            phonetics_score := (module_scores.find? (fun p => p.1 == "phonetics")).bind (·.2)
            conversation_messages := conversation_messages
            vocabulary_attempts := attemptsOf "vocabulary"
            grammar_attempts := attemptsOf "grammar"
            writing_attempts := attemptsOf "writing"
            phonetics_attempts := attemptsOf "phonetics"
            started_at := user.level_started_at.getD user.created_at
            completed_at := now
            days_at_level := days_at_level
            weighted_score := weighted_score }
        let db1 := { db with history := db.history ++ [history_entry] }
        let db2 := reset_progress_for_new_level user_id db1
        let xp_earned := xpReward old_level
        let updated_user := { user with
          level := some new_level
          level_started_at := some now
          can_advance := false
          advancement_notified_at := none
          total_xp := user.total_xp + xp_earned }
        let db3 := { db2 with
          users := db2.users.map (fun u => if u.id == user.id then updated_user else u) }
        (.ok { success := true
               new_level := new_level
               old_level := old_level
               xp_earned := xp_earned
               module_scores := module_scores }, db3)
    else
      (.error (.notEligible elig.reason), db)

/-! Helper lemmas about rounding and the SM-2 easiness update. -/

theorem clamp_eq_max (x : ℚ) :
    (if x < 13/10 then (13/10 : ℚ) else x) = max (13/10) x := by
  rcases lt_or_le x (13/10) with h | h
  · rw [if_pos h, max_eq_left h.le]
  · rw [if_neg (not_lt.mpr h), max_eq_right h]

theorem pythonRound_intCast (n : ℤ) : pythonRound ((n : ℤ) : ℚ) = n := by
  unfold pythonRound
  rw [ratFloor_eq_floor, Int.floor_intCast]
  norm_num

theorem floor_le_pythonRound (q : ℚ) : ⌊q⌋ ≤ pythonRound q := by
  unfold pythonRound
  rw [ratFloor_eq_floor]
  dsimp only
  split_ifs <;> omega

theorem round2_ge (x : ℚ) (h : 13/10 ≤ x) : 13/10 ≤ round2 x := by
  unfold round2
  have h1 : (130 : ℤ) ≤ ⌊x * 100⌋ := by
    rw [Int.le_floor]
    push_cast
    linarith
  have h2 : (130 : ℤ) ≤ pythonRound (x * 100) :=
    le_trans h1 (floor_le_pythonRound _)
  have h3 : ((130 : ℤ) : ℚ) ≤ (pythonRound (x * 100) : ℚ) := by exact_mod_cast h2
  push_cast at h3
  linarith

theorem round2_int_div_100 (n : ℤ) : round2 ((n : ℚ) / 100) = (n : ℚ) / 100 := by
  unfold round2
  rw [div_mul_cancel₀ _ (by norm_num : (100 : ℚ) ≠ 0), pythonRound_intCast]

theorem sm2_easiness_eq (q : ℤ) (ef : ℚ) (reps interval : ℤ) :
    (calculate_sm2 q ef reps interval).easiness_factor
      = round2 (max (13/10)
          (ef + (1/10 - (5 - (q : ℚ)) * (8/100 + (5 - (q : ℚ)) * (2/100))))) := by
  simp only [calculate_sm2, clamp_eq_max]
  split <;> rfl

/-- C2: for quality in 0..5, repetitions ≥ 0 and interval ≥ 1, `calculate_sm2`
schedules exactly as the spec states: on `quality < 3` repetitions drop by two
(floored at 0) and the interval resets to 1; on `quality ≥ 3` repetitions
increment and the interval is 1, then 6, then `round(interval × EF')` with
`EF'` the post-clamping (pre-rounding) updated easiness factor. -/
theorem calculate_sm2_repetition_interval_schedule (q : ℤ) (ef : ℚ)
    (reps interval : ℤ) (hq0 : 0 ≤ q) (hq5 : q ≤ 5) (hreps : 0 ≤ reps)
    (hint : 1 ≤ interval) :
    (q < 3 → (calculate_sm2 q ef reps interval).repetitions = max 0 (reps - 2)
           ∧ (calculate_sm2 q ef reps interval).interval = 1)
    ∧ (3 ≤ q → (calculate_sm2 q ef reps interval).repetitions = reps + 1
           ∧ (calculate_sm2 q ef reps interval).interval =
               (if reps + 1 = 1 then 1 else if reps + 1 = 2 then 6
                else pythonRound ((interval : ℚ) *
                  max (13/10)
                    (ef + (1/10 - (5 - (q : ℚ)) * (8/100 + (5 - (q : ℚ)) * (2/100))))))) := by
  constructor
  · intro h
    constructor <;> simp [calculate_sm2, h]
  · intro h
    have h3 : ¬ q < 3 := not_lt.mpr h
    constructor <;> simp [calculate_sm2, h3, clamp_eq_max]

/-- Witness for C2: a failed recall (quality 1) at repetitions 5 demotes to 3
with interval 1, and a success (quality 4) at repetitions 2, interval 6,
EF 2.5 advances to repetitions 3 with interval round(6 × 2.46) = 15. -/
theorem calculate_sm2_repetition_interval_schedule_witness :
    ((calculate_sm2 1 (5/2) 5 10).repetitions = max 0 (5 - 2)
      ∧ (calculate_sm2 1 (5/2) 5 10).interval = 1)
    ∧ ((calculate_sm2 4 (5/2) 2 6).repetitions = 2 + 1
      ∧ (calculate_sm2 4 (5/2) 2 6).interval =
          (if (2:ℤ) + 1 = 1 then 1 else if (2:ℤ) + 1 = 2 then 6
           else pythonRound ((6 : ℚ) *
             max (13/10)
               (5/2 + (1/10 - (5 - (4 : ℚ)) * (8/100 + (5 - (4 : ℚ)) * (2/100))))))) :=
  ⟨(calculate_sm2_repetition_interval_schedule 1 (5/2) 5 10
      (by decide) (by decide) (by decide) (by decide)).1 (by decide),
   (calculate_sm2_repetition_interval_schedule 4 (5/2) 2 6
      (by decide) (by decide) (by decide) (by decide)).2 (by decide)⟩

/-- C3 counterexample: at EF = 2.005 and quality 5 the exact clamped formula
value is 2.105, but `calculate_sm2` returns its two-decimal rounding 2.1, so
the returned value is not exactly the formula value. -/
theorem calculate_sm2_ef_not_exact :
    (calculate_sm2 5 (401/200) 0 1).easiness_factor
      ≠ max (13/10)
          (401/200 + (1/10 - (5 - (5 : ℚ)) * (8/100 + (5 - (5 : ℚ)) * (2/100)))) := by
  decide

/-- C3 (amended): for quality in 0..5 and any EF that is an integer multiple
of 0.01 — which covers every EF the system ever stores, since items start at
2.5 and every persisted EF is rounded to two decimals — the returned easiness
factor is exactly `EF + (0.1 − (5−q)×(0.08 + (5−q)×0.02))` clamped below at
1.3, with no upper bound. -/
theorem calculate_sm2_ef_exact_on_two_decimal_inputs (q : ℤ) (ef : ℚ)
    (reps interval : ℤ) (hq0 : 0 ≤ q) (hq5 : q ≤ 5)
    (hef : ∃ k : ℤ, ef = (k : ℚ) / 100) :
    (calculate_sm2 q ef reps interval).easiness_factor
      = max (13/10)
          (ef + (1/10 - (5 - (q : ℚ)) * (8/100 + (5 - (q : ℚ)) * (2/100)))) := by
  obtain ⟨k, rfl⟩ := hef
  rw [sm2_easiness_eq]
  have hδ : ((k : ℚ) / 100 + (1/10 - (5 - (q : ℚ)) * (8/100 + (5 - (q : ℚ)) * (2/100))))
      = ((k + (10 - (5 - q) * (8 + (5 - q) * 2)) : ℤ) : ℚ) / 100 := by
    push_cast
    ring
  rw [hδ]
  have hmax : max ((13 : ℚ)/10) (((k + (10 - (5 - q) * (8 + (5 - q) * 2)) : ℤ) : ℚ) / 100)
      = ((max 130 (k + (10 - (5 - q) * (8 + (5 - q) * 2))) : ℤ) : ℚ) / 100 := by
    rw [Int.cast_max, ← max_div_div_right (by norm_num : (0:ℚ) ≤ 100)]
    norm_num
  rw [hmax, round2_int_div_100]

/-- Witness for C3's amended claim: at quality 3, EF 2.5 (= 250/100) the
returned EF is exactly the clamped formula value 2.36. -/
theorem calculate_sm2_ef_exact_on_two_decimal_inputs_witness :
    (calculate_sm2 3 (5/2) 7 10).easiness_factor
      = max (13/10)
          (5/2 + (1/10 - (5 - (3 : ℚ)) * (8/100 + (5 - (3 : ℚ)) * (2/100)))) :=
  calculate_sm2_ef_exact_on_two_decimal_inputs 3 (5/2) 7 10
    (by decide) (by decide) ⟨250, by norm_num⟩

/-- C4: for all valid inputs (quality 0..5, EF ≥ 1.3, repetitions ≥ 0,
interval ≥ 1) the easiness factor returned by `calculate_sm2` is ≥ 1.3. -/
theorem calculate_sm2_ef_floor (q : ℤ) (ef : ℚ) (reps interval : ℤ)
    (hq0 : 0 ≤ q) (hq5 : q ≤ 5) (hef : 13/10 ≤ ef) (hreps : 0 ≤ reps)
    (hint : 1 ≤ interval) :
    13/10 ≤ (calculate_sm2 q ef reps interval).easiness_factor := by
  rw [sm2_easiness_eq]
  exact round2_ge _ (le_max_left _ _)

/-- Witness for C4: a complete blackout (quality 0) at the floor EF itself
keeps the returned EF at ≥ 1.3. -/
theorem calculate_sm2_ef_floor_witness :
    13/10 ≤ (calculate_sm2 0 (13/10) 0 1).easiness_factor :=
  calculate_sm2_ef_floor 0 (13/10) 0 1 (by decide) (by decide) (le_refl _)
    (by decide) (by decide)

/-! Helper lemmas about `List.find?` under append and keyed update. -/

theorem find?_append_of_none {α : Type} (p : α → Bool) (l1 l2 : List α)
    (h : l1.find? p = none) : (l1 ++ l2).find? p = l2.find? p := by
  induction l1 with
  | nil => rfl
  | cons a l ih =>
    cases hpa : p a with
    | true => simp [List.find?, hpa] at h
    | false =>
      simp only [List.find?, hpa] at h
      simpa [List.find?, hpa] using ih h

/-- If `find? p` returns `a` and a keyed in-place update replaces every row
matching `a`'s key by `b` (with `p b` still true), then `find? p` on the
updated list returns `b`. -/
theorem find?_map_if {α : Type} (l : List α) (p g : α → Bool) (a b : α)
    (h : l.find? p = some a) (hga : g a = true) (hpb : p b = true) :
    (l.map (fun x => if g x then b else x)).find? p = some b := by
  induction l with
  | nil => simp [List.find?] at h
  | cons x xs ih =>
    cases hpx : p x with
    | true =>
      have hax : x = a := by simpa [List.find?, hpx] using h
      subst hax
      simp [List.find?, hga, hpb]
    | false =>
      have h' : xs.find? p = some a := by simpa [List.find?, hpx] using h
      cases hgx : g x with
      | true => simp [List.find?, hgx, hpb]
      | false =>
        simp only [List.map, hgx, if_false]
        simpa [List.find?, hpx] using ih h'

/-- After any `add_word_to_srs` call, looking the (user, word, language) key up
again finds exactly the returned item. -/
theorem add_word_finds (db : DB) (u : User) (w d : String) (ex : Option String)
    (t : ℤ) (r1 : VocabularyReview) (db1 : DB)
    (h : add_word_to_srs db u w d ex t = (r1, db1)) :
    db1.reviews.find? (fun r => r.user_id == u.id && r.word == w
        && r.target_language == u.target_language) = some r1 := by
  simp only [add_word_to_srs] at h
  cases hf : db.reviews.find? (fun r => r.user_id == u.id && r.word == w
      && r.target_language == u.target_language) with
  | none =>
    simp only [hf] at h
    injection h with ha hb
    subst ha
    subst hb
    rw [find?_append_of_none _ _ _ hf]
    simp [List.find?]
  | some r =>
    have hpr := List.find?_some hf
    simp only [hf] at h
    by_cases hpull : t < r.next_review_date
    · rw [if_pos hpull] at h
      injection h with ha hb
      subst ha
      subst hb
      exact find?_map_if db.reviews _ (fun x => x.id == r.id) r _ hf (by simp) hpr
    · rw [if_neg hpull] at h
      injection h with ha hb
      subst ha
      subst hb
      exact hf

/-- C6: calling `add_word_to_srs` twice for the same (user, word, language)
never creates a second item — the second call returns the item already present
after the first call, leaves every scheduling field (EF, repetitions,
interval) unchanged, and pulls `next_review_date` forward to now exactly when
it was in the future. -/
theorem add_word_to_srs_idempotent (db : DB) (u : User) (w d : String)
    (ex : Option String) (t1 t2 : ℤ) (r1 r2 : VocabularyReview) (db1 db2 : DB)
    (h1 : add_word_to_srs db u w d ex t1 = (r1, db1))
    (h2 : add_word_to_srs db1 u w d ex t2 = (r2, db2)) :
    db2.reviews.length = db1.reviews.length
    ∧ r2.id = r1.id ∧ r2.user_id = r1.user_id ∧ r2.word = r1.word
    ∧ r2.target_language = r1.target_language
    ∧ r2.easiness_factor = r1.easiness_factor
    ∧ r2.repetitions = r1.repetitions
    ∧ r2.interval = r1.interval
    ∧ r2.next_review_date =
        (if t2 < r1.next_review_date then t2 else r1.next_review_date)
    ∧ r2 ∈ db2.reviews := by
  have hfind := add_word_finds db u w d ex t1 r1 db1 h1
  have hmem1 : r1 ∈ db1.reviews := List.mem_of_find?_eq_some hfind
  simp only [add_word_to_srs, hfind] at h2
  by_cases hpull : t2 < r1.next_review_date
  · rw [if_pos hpull] at h2
    injection h2 with ha hb
    subst ha
    subst hb
    refine ⟨by simp, rfl, rfl, rfl, rfl, rfl, rfl, rfl, by rw [if_pos hpull], ?_⟩
    exact List.mem_map.mpr ⟨r1, hmem1, by simp⟩
  · rw [if_neg hpull] at h2
    injection h2 with ha hb
    subst ha
    subst hb
    exact ⟨rfl, rfl, rfl, rfl, rfl, rfl, rfl, rfl, by rw [if_neg hpull], hmem1⟩

/-- An empty database, used by concrete witnesses. -/
def emptyDB : DB :=
  { users := [], progress := [], sessions := [], history := [], reviews := [] }

/-- A user with no recorded activity, used by concrete witnesses. -/
def aliceUser : User :=
  { id := "alice", target_language := "Spanish", level := some "A1",
    level_started_at := some 0, can_advance := true,
    advancement_notified_at := none, total_xp := 0, created_at := 0 }

/-- Witness for C6: adding "hola" twice to an empty table — the first call at
t=5 creates the item, the second at t=3 returns it (pulled forward, same
scheduling fields, no second row). -/
theorem add_word_to_srs_idempotent_witness :
    ((add_word_to_srs (add_word_to_srs emptyDB aliceUser "hola" "hello" none 5).2
        aliceUser "hola" "hello" none 3).2).reviews.length
      = ((add_word_to_srs emptyDB aliceUser "hola" "hello" none 5).2).reviews.length :=
  (add_word_to_srs_idempotent emptyDB aliceUser "hola" "hello" none 5 3
    _ _ _ _ rfl rfl).1

/-- C10: a successful `update_review` persists, as the item's new easiness
factor, exactly the two-decimal rounding (applied after the 1.3 clamp) of the
SM-2 formula value computed from the item's stored EF — so the stored EF is
always an integer multiple of 0.01, and the interval compounding of any later
review reads this rounded value (later calls read `easiness_factor` from the
persisted row). -/
theorem update_review_persists_rounded_ef (db : DB) (rid q now : ℤ)
    (r : VocabularyReview)
    (hfind : db.reviews.find? (fun x => x.id == rid) = some r) :
    ∃ upd : VocabularyReview,
      (update_review db rid q now).1 = .ok upd
      ∧ upd.easiness_factor = round2 (max (13/10) (r.easiness_factor +
          (1/10 - (5 - (q : ℚ)) * (8/100 + (5 - (q : ℚ)) * (2/100)))))
      ∧ (∃ k : ℤ, upd.easiness_factor = (k : ℚ) / 100)
      ∧ upd ∈ ((update_review db rid q now).2).reviews := by
  have hmem : r ∈ db.reviews := List.mem_of_find?_eq_some hfind
  simp only [update_review, hfind]
  refine ⟨_, rfl, sm2_easiness_eq q r.easiness_factor r.repetitions r.interval,
    ?_, ?_⟩
  · rw [sm2_easiness_eq]
    exact ⟨pythonRound (max (13/10) (r.easiness_factor +
      (1/10 - (5 - (q : ℚ)) * (8/100 + (5 - (q : ℚ)) * (2/100)))) * 100), rfl⟩
  · exact List.mem_map.mpr ⟨r, hmem, by simp⟩

/-- A stored review item, used by concrete witnesses of the review-update
claims. -/
def holaReview : VocabularyReview :=
  { id := 1, user_id := "alice", word := "hola", definition := "hello",
    example_sentence := none, target_language := "Spanish",
    easiness_factor := 5/2, repetitions := 0, interval := 1,
    next_review_date := 0, last_reviewed_at := none }

/-- A database holding only `holaReview`, used by the C10 witness. -/
def holaDB : DB :=
  { users := [], progress := [], sessions := [], history := [], reviews := [holaReview] }

/-- Witness for C10 at a concrete state: reviewing item 1 at quality 4 stores
a 2-decimal rounded EF. -/
theorem update_review_persists_rounded_ef_witness :
    ∃ upd : VocabularyReview,
      (update_review holaDB 1 4 7).1 = .ok upd
      ∧ upd.easiness_factor = round2 (max (13/10) (holaReview.easiness_factor +
          (1/10 - (5 - (4 : ℚ)) * (8/100 + (5 - (4 : ℚ)) * (2/100)))))
      ∧ (∃ k : ℤ, upd.easiness_factor = (k : ℚ) / 100)
      ∧ upd ∈ ((update_review holaDB 1 4 7).2).reviews :=
  update_review_persists_rounded_ef holaDB 1 4 7 holaReview rfl

/-- C5 (code bug): there is no quality validation anywhere on the review path.
`update_review` accepts the out-of-range quality 6 for the stored item
(EF 2.5, repetitions 0, interval 1): it succeeds — no error of any kind — and
mutates the persisted item (EF′ = 2.5 + 0.16 = 2.66, repetitions 1), instead
of rejecting the request before any mutation. -/
theorem update_review_accepts_out_of_range_quality :
    (update_review holaDB 1 6 0).1 =
      .ok { holaReview with
            easiness_factor := 133/50
            repetitions := 1
            interval := 1
            next_review_date := 1
            last_reviewed_at := some 0 }
    ∧ (update_review holaDB 1 6 0).2 ≠ holaDB := by
  constructor
  · decide
  · decide

/-- The review item of user "bob", used by the C9 counter-scenario. -/
def bobReview : VocabularyReview :=
  { id := 1, user_id := "bob", word := "hola", definition := "hello",
    example_sentence := none, target_language := "Spanish",
    easiness_factor := 5/2, repetitions := 0, interval := 1,
    next_review_date := 0, last_reviewed_at := none }

/-- A two-user database in which review item 1 belongs to "bob". -/
def bobDB : DB :=
  { users := [], progress := [], sessions := [], history := [],
    reviews := [bobReview] }

/-- C9 (code bug): the function `update_review` — which `submit_vocabulary_answer`
invokes with the client-supplied `review_id` on behalf of the authenticated
user — selects by item id alone and never consults the caller's identity, so
a call issued on behalf of "alice" succeeds and mutates the item owned by
"bob" (the ownership-checking `get_review_by_id` is never called on this
path). -/
theorem update_review_mutates_other_users_item :
    ((update_review bobDB 1 5 0).1).isOk = true
    ∧ (update_review bobDB 1 5 0).2 ≠ bobDB
    ∧ (∀ x ∈ ((update_review bobDB 1 5 0).2).reviews, x.user_id = "bob") := by
  refine ⟨by decide, by decide, ?_⟩
  decide

/-- The session state returned by `calculate_advancement_eligibility` is its
input: the function body contains no mutation of any row. -/
theorem elig_state_unchanged (user_id : String) (db : DB) :
    (calculate_advancement_eligibility user_id db).2 = db := rfl

/-- Iterated back-to-back calls of `calculate_advancement_eligibility`, threading
the session state through each call and collecting the results. -/
def eligIterate (user_id : String) : ℕ → DB → List EligibilityResult × DB
  | 0, db => ([], db)
  | n + 1, db =>
    let p := calculate_advancement_eligibility user_id db
    let rest := eligIterate user_id n p.2
    (p.1 :: rest.1, rest.2)

/-- C7: the function `calculate_advancement_eligibility` is a pure read — calling it any
number of times in a row yields the same result every time and leaves every
persisted record (all user, progress, session, history and review rows)
unchanged. -/
theorem calculate_advancement_eligibility_pure_read (user_id : String)
    (n : ℕ) (db : DB) :
    eligIterate user_id n db
      = (List.replicate n ((calculate_advancement_eligibility user_id db).1), db) := by
  induction n with
  | zero => rfl
  | succ k ih =>
    simp [eligIterate, elig_state_unchanged, ih, List.replicate_succ]

/-- C1: whenever the freshly computed eligibility of an existing user is
false, `advance_user_level` fails with the dedicated not-eligible error
carrying the eligibility reason (a distinct raise site, not the generic
user-not-found or max-level error) and leaves the whole persisted state —
level, XP, module progress, sessions, level history — unchanged.  The
function takes no caller-supplied flag: the check is recomputed inside, so
the stored `can_advance` flag has no influence. -/
theorem advance_reverifies_eligibility (user_id : String) (now : ℤ)
    (hid : String) (db : DB) (u : User)
    (hu : db.users.find? (fun x => x.id == user_id) = some u)
    (hine : ((calculate_advancement_eligibility user_id db).1).eligible = false) :
    (advance_user_level user_id now hid db).1
        = .error (.notEligible ((calculate_advancement_eligibility user_id db).1).reason)
    ∧ (advance_user_level user_id now hid db).2 = db := by
  simp only [advance_user_level, hu, hine]
  simp

/-- Database with one user and no activity at all: eligibility is false (every
scored module blocks) even though the user's cached `can_advance` flag is
true. -/
def aliceDB : DB :=
  { users := [aliceUser], progress := [], sessions := [], history := [],
    reviews := [] }

/-- Witness for C1: advancing the inactive user fails with the not-eligible
error and leaves the database untouched, despite `can_advance = true`. -/
theorem advance_reverifies_eligibility_witness :
    (advance_user_level "alice" 5 "h1" aliceDB).1
        = .error (.notEligible ((calculate_advancement_eligibility "alice" aliceDB).1).reason)
    ∧ (advance_user_level "alice" 5 "h1" aliceDB).2 = aliceDB :=
  advance_reverifies_eligibility "alice" 5 "h1" aliceDB aliceUser
    (by decide) (by decide)

/-- On the successful path, `advance_user_level` rewrites the progress table
by zeroing the user's rows in place and drops exactly the user's sessions. -/
theorem advance_ok_state (user_id : String) (now : ℤ) (hid : String) (db : DB)
    (h : ((advance_user_level user_id now hid db).1).isOk = true) :
    ((advance_user_level user_id now hid db).2).progress
        = db.progress.map (fun p =>
            if p.user_id == user_id then
              { p with score := some 0, total_attempts := 0, correct_attempts := 0 }
            else p)
    ∧ ((advance_user_level user_id now hid db).2).sessions
        = db.sessions.filter (fun s => !(s.user_id == user_id)) := by
  cases hu : db.users.find? (fun x => x.id == user_id) with
  | none =>
    simp [advance_user_level, hu, Except.isOk, Except.toBool] at h
  | some u =>
    cases helig : ((calculate_advancement_eligibility user_id db).1).eligible with
    | false =>
      simp [advance_user_level, hu, helig, Except.isOk, Except.toBool] at h
    | true =>
      cases hnext : get_next_level u.level with
      | none =>
        simp [advance_user_level, hu, helig, hnext, Except.isOk, Except.toBool] at h
      | some nl =>
        simp only [advance_user_level, hu, helig, hnext, if_true,
          reset_progress_for_new_level]
        constructor <;> trivial

/-- C8: after every successful `advance_user_level` call, every progress row
of the user (in particular every scored module's row) is reset in place to
`total_attempts = 0`, `correct_attempts = 0`, `score = 0` — the rows are
reused, their (user, module) keys surviving in order, never deleted — and no
conversation session of the user remains. -/
theorem advance_resets_progress_and_sessions (user_id : String) (now : ℤ)
    (hid : String) (db : DB)
    (h : ((advance_user_level user_id now hid db).1).isOk = true) :
    (∀ p ∈ ((advance_user_level user_id now hid db).2).progress,
        p.user_id = user_id →
          p.total_attempts = 0 ∧ p.correct_attempts = 0 ∧ p.score = some 0)
    ∧ ((advance_user_level user_id now hid db).2).progress.map
          (fun p => (p.user_id, p.module))
        = db.progress.map (fun p => (p.user_id, p.module))
    ∧ (∀ s ∈ ((advance_user_level user_id now hid db).2).sessions,
        s.user_id ≠ user_id) := by
  obtain ⟨hprog, hsess⟩ := advance_ok_state user_id now hid db h
  refine ⟨?_, ?_, ?_⟩
  · intro p hp hpid
    rw [hprog] at hp
    obtain ⟨p0, hp0, rfl⟩ := List.mem_map.mp hp
    by_cases hb : p0.user_id == user_id
    · simp [hb]
    · rw [if_neg (by simpa using hb)] at hpid
      exact absurd hpid (by simpa using hb)
  · rw [hprog, List.map_map]
    have hcomp : ((fun p : UserProgress => (p.user_id, p.module)) ∘
        (fun p => if p.user_id == user_id then
          { p with score := some 0, total_attempts := 0, correct_attempts := 0 }
        else p)) = (fun p : UserProgress => (p.user_id, p.module)) := by
      funext x
      simp only [Function.comp_apply]
      split_ifs <;> rfl
    rw [hcomp]
  · intro s hs
    rw [hsess] at hs
    simpa using (List.mem_filter.mp hs).2

/-- Database in which "alice" meets every advancement requirement (four scored
modules at ≥ 85% with ≥ 10 attempts, 22 conversation messages), plus rows of
another user "bob" that must survive the advancement untouched. -/
def fullDB : DB :=
  { users := [aliceUser]
    progress :=
      [ { user_id := "alice", module := "vocabulary", score := some 90,
          total_attempts := 12, correct_attempts := 11, last_activity_at := none },
        { user_id := "alice", module := "grammar", score := some 88,
          total_attempts := 12, correct_attempts := 11, last_activity_at := none },
        { user_id := "alice", module := "writing", score := some 86,
          total_attempts := 11, correct_attempts := 10, last_activity_at := none },
        { user_id := "alice", module := "phonetics", score := some 87,
          total_attempts := 10, correct_attempts := 9, last_activity_at := none },
        { user_id := "bob", module := "vocabulary", score := some 50,
          total_attempts := 3, correct_attempts := 1, last_activity_at := none } ]
    sessions :=
      [ { id := "s1", user_id := "alice",
          messages := List.replicate 22 { role := "user", content := "hola" } },
        { id := "s2", user_id := "bob",
          messages := [{ role := "user", content := "x" }] } ]
    history := []
    reviews := [] }

/-- Witness for C8: advancing the fully-eligible user succeeds and the
conclusion holds at the resulting concrete state. -/
theorem advance_resets_progress_and_sessions_witness :
    (∀ p ∈ ((advance_user_level "alice" 5 "h1" fullDB).2).progress,
        p.user_id = "alice" →
          p.total_attempts = 0 ∧ p.correct_attempts = 0 ∧ p.score = some 0)
    ∧ ((advance_user_level "alice" 5 "h1" fullDB).2).progress.map
          (fun p => (p.user_id, p.module))
        = fullDB.progress.map (fun p => (p.user_id, p.module))
    ∧ (∀ s ∈ ((advance_user_level "alice" 5 "h1" fullDB).2).sessions,
        s.user_id ≠ "alice") :=
  advance_resets_progress_and_sessions "alice" 5 "h1" fullDB (by decide)


end GenaiLang
